import Mathlib

/-!
Verification development for the Daily Market Report generator
(`generate.js`).  The pipeline under study: an aggregator fetches quotes,
news and earnings from a market-data provider, a prompt builder renders the
aggregated snapshot together with a fixed numbered section taxonomy into one
synthesis request, the raw synthesized text is parsed back into sections by
splitting at numbered uppercase header lines, and the sections are rendered
into an HTML document that is delivered by mail.

The embedding below translates the functions of `generate.js` into Lean,
replacing the external collaborators (HTTP fetches, the language-model call,
`JSON.stringify`, `Number.prototype.toFixed`, the mail transport, the clock)
by explicit oracle parameters, exactly at the boundaries where the source
calls them.
-/

namespace DailyMarketReport

/-! ### Character classes of the header grammar

The section parser in `formatEmailHTML` uses the JavaScript regexes
`/\n(?=\d+\.\s+[A-Z\s]+)/` (split), `/^(\d+)\.\s+([A-Z\s]+)/` (header
match) and `/^\d+\.\s+[A-Z\s]+\n/` (header strip).  `\d` is the ASCII
digit class, `\s` is the JavaScript whitespace class (ASCII whitespace
plus the Unicode space separators, line/paragraph separators, NBSP,
narrow NBSP, mathematical space, ideographic space and BOM), and `[A-Z\s]`
is the union of the uppercase ASCII letters with `\s`. -/

/-- The JavaScript regex `\s` class, by code point. -/
def jsWhitespace (c : Char) : Bool :=
  let n := c.toNat
  (9 ≤ n && n ≤ 13) || n == 32 || n == 160 || n == 5760 ||
  (8192 ≤ n && n ≤ 8202) || n == 8232 || n == 8233 || n == 8239 ||
  n == 8287 || n == 12288 || n == 65279

/-- The regex class `[A-Z]`: uppercase ASCII letters. -/
def upperAZ (c : Char) : Bool :=
  'A' ≤ c && c ≤ 'Z'

/-- The regex class `[A-Z\s]` used for section titles. -/
def headerClassChar (c : Char) : Bool :=
  upperAZ c || jsWhitespace c

/-! ### SectionParser

`formatEmailHTML` (second half of `generate.js`) does
`analysis.split(/\n(?=\d+\.\s+[A-Z\s]+)/)`, then for each chunk matches
`/^(\d+)\.\s+([A-Z\s]+)/`; on a match it renders a titled block whose body
is `section.replace(/^\d+\.\s+[A-Z\s]+\n/, '')`, otherwise it renders the
whole chunk as an untitled block.  The functions below reproduce the exact
backtracking semantics of those three regexes on `List Char`. -/

/-- The capture `\s+([A-Z\s]+)` evaluated after `<digits>.`:
`\s+` is matched greedily; if no `[A-Z\s]` character follows the maximal
whitespace run the engine backtracks `\s+` by one character, in which case
the title capture is that single whitespace character. -/
def headerTitle (p : List Char) : Option String :=
  let ws := p.takeWhile jsWhitespace
  let r := (p.drop ws.length).takeWhile headerClassChar
  if ws.isEmpty then none
  else if !r.isEmpty then some (String.mk r)
  else if 2 ≤ ws.length then some (String.mk [(ws.getLast?).getD ' '])
  else none

/-- The chunk header match `/^(\d+)\.\s+([A-Z\s]+)/`: returns the two
captures (the digit run and the title) when the regex matches at the start
of the chunk. -/
def matchHeader (s : List Char) : Option (String × String) :=
  if (s.takeWhile Char.isDigit).isEmpty then none
  else
    match s.drop (s.takeWhile Char.isDigit).length with
    | '.' :: p => (headerTitle p).map fun t => (String.mk (s.takeWhile Char.isDigit), t)
    | _ => none

/-- The split lookahead `(?=\d+\.\s+[A-Z\s]+)`: it holds exactly when a
digit run is followed by `.`, one whitespace character and one further
`[A-Z\s]` character (the shortest way to satisfy `\s+[A-Z\s]+`). -/
def headerLookahead (s : List Char) : Bool :=
  if (s.takeWhile Char.isDigit).isEmpty then false
  else
    match s.drop (s.takeWhile Char.isDigit).length with
    | '.' :: c1 :: c2 :: _ => jsWhitespace c1 && headerClassChar c2
    | _ => false

/-- Index of the newline consumed by `/^\d+\.\s+[A-Z\s]+\n/` inside the
maximal `[A-Z\s]` run `L` that follows `<digits>.`: the backtracking engine
settles on the largest index `j` with `2 ≤ j < L.length` and `L[j] = '\n'`
(`\s+` and `[A-Z\s]+` must each consume at least one character, and the
character after the run is never a newline). -/
def lastHeaderNewline (L : List Char) : Option Nat :=
  ((List.range L.length).filter fun j =>
    decide (2 ≤ j) && decide (L.getD j ' ' = '\n')).getLast?

/-- `section.replace(/^\d+\.\s+[A-Z\s]+\n/, '')`: strips the header line
(everything up to and including the newline found by the greedy match) when
the regex matches, and returns the chunk unchanged otherwise. -/
def stripHeaderLine (s : List Char) : List Char :=
  if (s.takeWhile Char.isDigit).isEmpty then s
  else
    match s.drop (s.takeWhile Char.isDigit).length with
    | '.' :: p =>
      let L := p.takeWhile headerClassChar
      if L.isEmpty || !jsWhitespace (L.headD ' ') then s
      else
        match lastHeaderNewline L with
        | some j => p.drop (j + 1)
        | none => s
    | _ => s

/-- One parsed section, the intermediate record the spec calls
`ParsedSection`: `number` and `title` are the two regex captures (`none`
for a body-only pseudo-section), `rawBody` is the chunk after the header
strip. -/
structure ParsedSection where
  number : Option String
  title : Option String
  rawBody : String
deriving DecidableEq, Repr

/-- The per-chunk step of `sections.map`: a matching chunk becomes a titled
section whose body is the chunk with the header line stripped; a
non-matching chunk is kept whole as an untitled block. -/
def parseChunk (chunk : List Char) : ParsedSection :=
  match matchHeader chunk with
  | some nt => { number := some nt.1, title := some nt.2, rawBody := String.mk (stripHeaderLine chunk) }
  | none => { number := none, title := none, rawBody := String.mk chunk }

/-- The splitter `analysis.split(/\n(?=\d+\.\s+[A-Z\s]+)/)`: a newline
whose lookahead succeeds separates chunks (and is dropped); every other
character stays in the current chunk. -/
def splitGo (s acc : List Char) : List (List Char) :=
  match s with
  | [] => [acc.reverse]
  | c :: rest =>
    if c = '\n' ∧ headerLookahead rest = true then acc.reverse :: splitGo rest []
    else splitGo rest (c :: acc)

/-- All chunks of the model response. -/
def splitSections (s : String) : List (List Char) :=
  splitGo s.data []

/-- The section parser: split into chunks, then classify each chunk. -/
def parseSections (s : String) : List ParsedSection :=
  (splitSections s).map parseChunk

/-! ### Data model of the aggregator

Quote fields come from the provider JSON; each field can be a number, JSON
`null`, or absent (`undefined`).  The three cases behave differently under
the JavaScript operations used downstream (`>= 0` is true for `null`,
false for `undefined`; optional chaining sends both to the `||` fallback),
so they are modelled separately.  The numeric payload is modelled as `Int`;
no claim performs arithmetic on it beyond the sign test. -/

/-- A JavaScript field value: a number, `null`, or `undefined`. -/
inductive JsNum
  | undef
  | null
  | num (val : Int)
deriving DecidableEq, Repr

/-- The raw provider quote payload (`quote.c`, `.d`, `.dp`, `.h`, `.l`,
`.o`, `.pc`). -/
structure RawQuote where
  c : JsNum
  d : JsNum
  dp : JsNum
  h : JsNum
  l : JsNum
  o : JsNum
  pc : JsNum
deriving DecidableEq, Repr

/-- The quote record built by `fetchMarketData` (`open` is a Lean keyword,
hence `openPrice`). -/
structure Quote where
  symbol : String
  current : JsNum
  change : JsNum
  changePercent : JsNum
  high : JsNum
  low : JsNum
  openPrice : JsNum
  previousClose : JsNum
deriving DecidableEq, Repr

/-- A raw provider news item (`item.headline` … `item.datetime`). -/
structure NewsRaw where
  headline : String
  summary : String
  source : String
  url : String
  datetime : Int
deriving DecidableEq, Repr

/-- The news record built by `fetchMarketNews`; `datetime` is already
converted to an ISO string. -/
structure NewsItem where
  headline : String
  summary : String
  source : String
  url : String
  datetime : String
deriving DecidableEq, Repr

/-- Earnings entries are passed through unvalidated; modelled as opaque
strings. -/
abbrev EarningsEntry := String

/-- `CONFIG.symbols.indices`. -/
def indicesSymbols : List String := ["SPY", "QQQ", "DIA", "IWM"]

/-- `CONFIG.symbols.majors`. -/
def majorsSymbols : List String := ["AAPL", "MSFT", "GOOGL", "AMZN", "NVDA", "TSLA", "META"]

/-- `CONFIG.symbols.sectors`. -/
def sectorsSymbols : List String :=
  ["XLK", "XLF", "XLE", "XLV", "XLI", "XLY", "XLP", "XLRE", "XLB", "XLU", "XLC"]

/-- `allSymbols` as assembled in `collectMarketData`. -/
def allSymbols : List String := indicesSymbols ++ majorsSymbols ++ sectorsSymbols

/-- `fetchMarketData(symbol)`: the HTTP fetch and JSON decode are the
oracle `net`; a network/decode failure is caught inside the function and
returns `null` (modelled `none`); on success the quote record carries the
requested symbol and the provider fields. -/
def fetchMarketData (net : String → Option RawQuote) (symbol : String) : Option Quote :=
  (net symbol).map fun q =>
    { symbol := symbol, current := q.c, change := q.d, changePercent := q.dp,
      high := q.h, low := q.l, openPrice := q.o, previousClose := q.pc }

/-- `fetchMarketNews()`: on provider failure the catch substitutes `[]`;
on success the response is capped with `slice(0, 20)` and each item is
mapped to a `NewsItem` (the epoch-to-ISO conversion is the oracle
`epochToIso`). -/
def fetchMarketNews (epochToIso : Int → String)
    (resp : Except Unit (List NewsRaw)) : List NewsItem :=
  match resp with
  | .error _ => []
  | .ok r =>
    (r.take 20).map fun item =>
      { headline := item.headline, summary := item.summary, source := item.source,
        url := item.url, datetime := epochToIso item.datetime }

/-- `fetchEarningsCalendar()`: `response.earningsCalendar?.slice(0,10) || []`
— a missing `earningsCalendar` field (inner `none`) or a thrown error both
yield `[]`; otherwise the list is capped at 10. -/
def fetchEarningsCalendar (resp : Except Unit (Option (List EarningsEntry))) :
    List EarningsEntry :=
  match resp with
  | .error _ => []
  | .ok r =>
    match r with
    | some cal => cal.take 10
    | none => []

/-- An observable step of the quote-collection loop: a quote fetch or the
1000 ms inter-call `setTimeout` wait. -/
inductive Ev
  | fetch (symbol : String)
  | delay
deriving DecidableEq, Repr

/-- Recognizer for fetch events. -/
def isFetchEv : Ev → Bool
  | .fetch _ => true
  | .delay => false

/-- Recognizer for delay events. -/
def isDelayEv : Ev → Bool
  | .delay => true
  | .fetch _ => false

/-- The successful quotes accumulated by the `for` loop of
`collectMarketData`: each symbol is fetched once, in order; a `null`
result is skipped (`if (data) marketData.push(data)`). -/
def collectQuotesList (fetchQ : String → Option Quote) : List String → List Quote
  | [] => []
  | s :: rest =>
    match fetchQ s with
    | some d => d :: collectQuotesList fetchQ rest
    | none => collectQuotesList fetchQ rest

/-- The fetch/delay trace of the same loop: one fetch per symbol, with the
delay inserted after every fetch except the last
(`if (i < allSymbols.length - 1) await … setTimeout(…, 1000)`). -/
def collectCallTrace : List String → List Ev
  | [] => []
  | s :: rest =>
    Ev.fetch s :: (if rest.isEmpty then [] else Ev.delay :: collectCallTrace rest)

/-- The snapshot returned by `collectMarketData`. -/
structure MarketSnapshot where
  timestamp : String
  marketData : List Quote
  news : List NewsItem
  earnings : List EarningsEntry
deriving DecidableEq, Repr

/-- `collectMarketData()`: quote loop over `allSymbols`, then the news and
earnings fetches; `now` is the clock oracle. -/
def collectMarketData (net : String → Option RawQuote)
    (newsResp : Except Unit (List NewsRaw))
    (earnResp : Except Unit (Option (List EarningsEntry)))
    (epochToIso : Int → String) (now : String) : MarketSnapshot :=
  { timestamp := now,
    marketData := collectQuotesList (fetchMarketData net) allSymbols,
    news := fetchMarketNews epochToIso newsResp,
    earnings := fetchEarningsCalendar earnResp }

/-! ### PromptBuilder

`generateAnalysis` renders one template literal.  The numbered section
taxonomy is the static block between the serialized data and the closing
instruction; it is reproduced here section by section, and the theorem
`promptSectionsBlock_text` below checks that the assembled block is
character-for-character the text of the source template. -/

/-- The ten prompt sections: ordinal, title, and per-section instruction
lines exactly as indented in the source template. -/
def sectionInstructions : List (Nat × String × List String) :=
  [(1, "EXECUTIVE SUMMARY",
     ["   - Brief 2-3 sentence overview of market sentiment and key overnight developments"]),
   (2, "MARKET OVERVIEW",
     ["   - Analysis of major indices (SPY, QQQ, DIA, IWM) performance",
      "   - Overall market direction and momentum",
      "   - Key technical levels"]),
   (3, "OVERNIGHT NEWS ANALYSIS",
     ["   - Summarize the most important news stories",
      "   - Explain market impact of each major story",
      "   - Identify themes and trends"]),
   (4, "SECTOR ANALYSIS",
     ["   - Performance breakdown by sector",
      "   - Leading and lagging sectors",
      "   - Sector rotation signals"]),
   (5, "PRE-MARKET MOVERS",
     ["   - Biggest gainers and losers",
      "   - Volume and volatility analysis",
      "   - Catalysts for significant moves"]),
   (6, "EARNINGS HIGHLIGHTS",
     ["   - Companies reporting today",
      "   - Expected market impact",
      "   - Sectors to watch"]),
   (7, "KEY ECONOMIC EVENTS",
     ["   - Important data releases or events today",
      "   - Expected market impact"]),
   (8, "RISK FACTORS",
     ["   - Potential headwinds or concerns",
      "   - Volatility indicators",
      "   - Key levels to watch"]),
   (9, "TRADING OPPORTUNITIES",
     ["   - Potential setups based on overnight action",
      "   - Risk/reward considerations",
      "   - Recommended watchlist"]),
   (10, "BOTTOM LINE",
     ["    - Clear, actionable summary",
      "    - Market bias (bullish/bearish/neutral)",
      "    - Key levels and catalysts for the day"])]

/-- The taxonomy both sides of the builder/parser contract agree on:
ordinal and title. -/
def sectionSpec : List (Nat × String) :=
  sectionInstructions.map fun t => (t.1, t.2.1)

/-- The numbered taxonomy block of the prompt template. -/
def promptSectionsBlock : String :=
  String.intercalate "\n\n" (sectionInstructions.map fun t =>
    toString t.1 ++ ". " ++ t.2.1 ++ "\n" ++ String.intercalate "\n" t.2.2)

/-- The prompt of `generateAnalysis`; `JSON.stringify` of the three data
lists is the serialization oracle triple. -/
def buildPrompt (stringifyQuotes : List Quote → String)
    (stringifyNews : List NewsItem → String)
    (stringifyEarnings : List EarningsEntry → String)
    (snap : MarketSnapshot) : String :=
  "You are an expert financial analyst. Analyze the following market data and news from the previous market close to now, and create a comprehensive pre-market report for professional traders.\n\nMARKET DATA:\n"
    ++ stringifyQuotes snap.marketData
    ++ "\n\nOVERNIGHT NEWS (Top Stories):\n"
    ++ stringifyNews snap.news
    ++ "\n\nEARNINGS TODAY:\n"
    ++ stringifyEarnings snap.earnings
    ++ "\n\nPlease provide a detailed analysis structured in the following sections:\n\n"
    ++ promptSectionsBlock
    ++ "\n\nKeep the analysis professional, data-driven, and actionable. Use specific numbers and percentages. Be concise but thorough."

/-- A stub synthesis response in the agreed grammar: each taxonomy title on
its own line as `N. TITLE`, each followed by one line of body text. -/
def agreedStubResponse : String :=
  String.intercalate "\n" (sectionSpec.map fun p =>
    toString p.1 ++ ". " ++ p.2 ++ "\nbody" ++ toString p.1)

/-! ### DocumentRenderer value display

The summary-strip card of `formatEmailHTML` interpolates
`${index.symbol}`, `$${index.current?.toFixed(2) || 'N/A'}` and
`${changeSymbol} ${index.changePercent?.toFixed(2) || '0.00'}%`, where
`changeSymbol`/`changeColor` come from `index.changePercent >= 0`.
`toFixed(2)` (floating point) is the oracle `fmt`; the CSS boilerplate
around the interpolated values is elided — no claim depends on it. -/

/-- The JavaScript test `x >= 0`: true for `null` (coerced to 0), false
for `undefined` (NaN comparison). -/
def jsGE0 : JsNum → Bool
  | .undef => false
  | .null => true
  | .num x => decide (0 ≤ x)

/-- `index.current?.toFixed(2) || 'N/A'`: optional chaining sends `null`
and `undefined` to the fallback, as does an empty (falsy) string. -/
def currentDisplay (fmt : Int → String) (q : Quote) : String :=
  match q.current with
  | .num v => if (fmt v).isEmpty then "N/A" else fmt v
  | _ => "N/A"

/-- `index.changePercent?.toFixed(2) || '0.00'`. -/
def changePercentDisplay (fmt : Int → String) (q : Quote) : String :=
  match q.changePercent with
  | .num v => if (fmt v).isEmpty then "0.00" else fmt v
  | _ => "0.00"

/-- `const changeSymbol = index.changePercent >= 0 ? up : down`. -/
def changeSymbolOf (q : Quote) : String :=
  if jsGE0 q.changePercent then "▲" else "▼"

/-- The change line of a summary card:
`${changeSymbol} ${index.changePercent?.toFixed(2) || '0.00'}%`. -/
def changeLine (fmt : Int → String) (q : Quote) : String :=
  changeSymbolOf q ++ " " ++ changePercentDisplay fmt q ++ "%"

/-- The data-bearing text of one summary card (symbol, dollar price,
change line). -/
def summaryCard (fmt : Int → String) (q : Quote) : String :=
  q.symbol ++ " $" ++ currentDisplay fmt q ++ " " ++ changeLine fmt q

/-- The text of one section block: matched chunks render their `h2` header
`${number}. ${title}` above the body, unmatched chunks render the chunk
text alone (the inline bullet/bold/paragraph HTML rewriting of the body is
elided — no claim depends on it). -/
def sectionBlock (sec : ParsedSection) : String :=
  match sec.number, sec.title with
  | some n, some t => n ++ ". " ++ t ++ "\n" ++ sec.rawBody
  | _, _ => sec.rawBody

/-- `formatEmailHTML(analysis, data)`: the summary strip over the quotes
whose symbol is in `CONFIG.symbols.indices`, followed by the parsed
section blocks. -/
def formatEmailHTML (fmt : Int → String) (analysis : String)
    (data : MarketSnapshot) : String :=
  let htmlContent := String.join ((parseSections analysis).map sectionBlock)
  let majorIndices := data.marketData.filter fun d => indicesSymbols.contains d.symbol
  let summaryCards := String.join (majorIndices.map (summaryCard fmt))
  summaryCards ++ htmlContent

/-! ### main

`main` checks the five configuration values, collects the snapshot,
generates the analysis (a synthesis failure is rethrown by
`generateAnalysis`), formats the email and sends it (a transport failure is
rethrown by `sendEmail`); any thrown error is caught once, logged with its
message and turned into `process.exit(1)`. -/

/-- The five environment-derived configuration values; `none` models an
unset variable, the empty string is also falsy in the `!CONFIG.x` check. -/
structure Config where
  anthropicApiKey : Option String
  finnhubApiKey : Option String
  emailUser : Option String
  emailPass : Option String
  recipientEmail : Option String
deriving DecidableEq, Repr

/-- JavaScript falsiness of an optional string (`undefined` or `""`). -/
def falsyStr : Option String → Bool
  | none => true
  | some s => s.isEmpty

/-- The guard
`!CONFIG.anthropicApiKey || !CONFIG.finnhubApiKey || !CONFIG.emailUser || !CONFIG.emailPass || !CONFIG.recipientEmail`. -/
def configMissing (cfg : Config) : Bool :=
  falsyStr cfg.anthropicApiKey || falsyStr cfg.finnhubApiKey ||
  falsyStr cfg.emailUser || falsyStr cfg.emailPass || falsyStr cfg.recipientEmail

/-- The external collaborators of one run. -/
structure Externals where
  net : String → Option RawQuote
  newsResp : Except Unit (List NewsRaw)
  earnResp : Except Unit (Option (List EarningsEntry))
  epochToIso : Int → String
  stringifyQuotes : List Quote → String
  stringifyNews : List NewsItem → String
  stringifyEarnings : List EarningsEntry → String
  synthesize : String → Except String String
  send : String → Except String Unit
  toFixed2 : Int → String
  now : String

/-- An outbound call of the pipeline, in issue order. -/
inductive ApiCall
  | quoteCall (symbol : String)
  | newsCall
  | earningsCall
  | synthCall
  | emailCall
deriving DecidableEq, Repr

/-- The observable outcome of one `main()` run: the process exit code, the
documents actually delivered, the logged fatal message, and the outbound
calls issued. -/
structure RunOutcome where
  exitCode : Nat
  sentEmails : List String
  errorMessage : Option String
  calls : List ApiCall
deriving Repr

/-- The snapshot a run collects. -/
def mainSnapshot (ext : Externals) : MarketSnapshot :=
  collectMarketData ext.net ext.newsResp ext.earnResp ext.epochToIso ext.now

/-- The prompt a run hands to the synthesis call. -/
def mainPrompt (ext : Externals) : String :=
  buildPrompt ext.stringifyQuotes ext.stringifyNews ext.stringifyEarnings (mainSnapshot ext)

/-- `main()`: config guard, collection, synthesis, formatting, delivery;
the `catch` turns the first thrown error into exit code 1 with the error
message, and nothing after the throw point runs. -/
def runMain (cfg : Config) (ext : Externals) : RunOutcome :=
  if configMissing cfg then
    { exitCode := 1, sentEmails := [],
      errorMessage := some "Missing required environment variables. Please check your configuration.",
      calls := [] }
  else
    let collectCalls := allSymbols.map ApiCall.quoteCall ++ [ApiCall.newsCall, ApiCall.earningsCall]
    match ext.synthesize (mainPrompt ext) with
    | .error e =>
      { exitCode := 1, sentEmails := [], errorMessage := some e,
        calls := collectCalls ++ [ApiCall.synthCall] }
    | .ok analysis =>
      let html := formatEmailHTML ext.toFixed2 analysis (mainSnapshot ext)
      match ext.send html with
      | .error e =>
        { exitCode := 1, sentEmails := [], errorMessage := some e,
          calls := collectCalls ++ [ApiCall.synthCall, ApiCall.emailCall] }
      | .ok _ =>
        { exitCode := 0, sentEmails := [html], errorMessage := none,
          calls := collectCalls ++ [ApiCall.synthCall, ApiCall.emailCall] }

/-! ### Helper lemmas about the splitter -/

/-- The splitter never returns an empty chunk list. -/
theorem splitGo_ne_nil (s acc : List Char) : splitGo s acc ≠ [] := by
  induction s generalizing acc with
  | nil => simp [splitGo]
  | cons c rest ih =>
    simp only [splitGo]
    split
    · simp
    · exact ih (c :: acc)

/-- `List.intercalate` on a cons with nonempty tail. -/
theorem intercalate_cons_of_ne_nil (sep x : List Char) {l : List (List Char)} (h : l ≠ []) :
    List.intercalate sep (x :: l) = x ++ sep ++ List.intercalate sep l := by
  cases l with
  | nil => exact absurd rfl h
  | cons y t => simp [List.intercalate, List.intersperse, List.append_assoc]

/-- Joining the chunks back with a newline recovers the input: the splitter
loses no text. -/
theorem intercalate_splitGo (s acc : List Char) :
    List.intercalate ['\n'] (splitGo s acc) = acc.reverse ++ s := by
  induction s generalizing acc with
  | nil => simp [splitGo, List.intercalate]
  | cons c rest ih =>
    simp only [splitGo]
    split
    · next hc =>
      rw [intercalate_cons_of_ne_nil _ _ (splitGo_ne_nil rest [])]
      rw [ih []]
      simp [hc.1]
    · next =>
      rw [ih (c :: acc)]
      simp

/-- After `<digits>.`, a whitespace character followed by an `[A-Z\s]`
character guarantees a title capture. -/
theorem headerTitle_isSome {c1 c2 : Char} (t : List Char)
    (h1 : jsWhitespace c1 = true) (h2 : headerClassChar c2 = true) :
    (headerTitle (c1 :: c2 :: t)).isSome := by
  unfold headerTitle
  by_cases hw : jsWhitespace c2 = true
  · simp only [List.takeWhile_cons, h1, hw, if_true]
    split
    · simp_all
    · split
      · simp
      · split
        · simp
        · simp_all
  · have hu : upperAZ c2 = true := by
      revert h2
      unfold headerClassChar
      simp [hw]
    have hcc : headerClassChar c2 = true := h2
    simp only [List.takeWhile_cons, h1, if_true]
    rw [if_neg (by simp [hw])]
    simp only [List.length_cons, List.takeWhile_nil]
    simp [hcc, hw]

/-- Where the split lookahead fires, the header match succeeds on the text
starting there. -/
theorem matchHeader_isSome_of_lookahead (s : List Char) (h : headerLookahead s = true) :
    (matchHeader s).isSome := by
  unfold headerLookahead at h
  unfold matchHeader
  split at h
  · exact absurd h (by simp)
  · next hd =>
    rw [if_neg hd]
    split at h
    · next c1 c2 t heq =>
      rw [heq]
      obtain ⟨h1, h2⟩ := Bool.and_eq_true_iff.mp h
      split
      · next p hp =>
        obtain rfl : c1 :: c2 :: t = p := by injection hp
        rw [Option.isSome_map']
        exact headerTitle_isSome _ h1 h2
      · next hp => exact absurd rfl (hp (c1 :: c2 :: t))
    · exact absurd h (by simp)

/-- Either the whole input is one chunk, or some chunk carries a header
match (in particular the chunk opened by the last lookahead split). -/
theorem splitGo_single_or_headed (s acc : List Char) :
    splitGo s acc = [acc.reverse ++ s] ∨
      ∃ chunk ∈ splitGo s acc, (matchHeader chunk).isSome := by
  induction s generalizing acc with
  | nil => left; simp [splitGo]
  | cons c rest ih =>
    simp only [splitGo]
    split
    · next hc =>
      right
      rcases ih [] with h1 | ⟨chunk, hm, hs⟩
      · refine ⟨rest, ?_, matchHeader_isSome_of_lookahead rest hc.2⟩
        rw [h1]
        simp
      · exact ⟨chunk, List.mem_cons_of_mem _ hm, hs⟩
    · next =>
      rcases ih (c :: acc) with h1 | h2
      · left
        rw [h1]
        simp
      · right
        exact h2

/-! ### Claim theorems -/

/-- C2: the section parser is total and lossless — it is a total function
whose result is the positional map of a chunk classifier over a split that
loses no text (joining the chunks back with a newline recovers the input),
every chunk that does not match the header grammar is preserved verbatim as
a body-only pseudo-section with no title, and an input on which the parser
matches zero headers yields exactly one pseudo-section with no title
containing the whole text. -/
theorem C2_sectionParsing_total_and_lossless (s : String) :
    parseSections s = (splitSections s).map parseChunk
    ∧ 1 ≤ (parseSections s).length
    ∧ List.intercalate ['\n'] (splitSections s) = s.data
    ∧ (∀ chunk, matchHeader chunk = none →
        parseChunk chunk = { number := none, title := none, rawBody := String.mk chunk })
    ∧ ((∀ sec ∈ parseSections s, sec.title = none) →
        parseSections s = [{ number := none, title := none, rawBody := s }]) := by
  refine ⟨rfl, ?_, intercalate_splitGo s.data [], ?_, ?_⟩
  · have hne := splitGo_ne_nil s.data []
    simpa [parseSections, splitSections, Nat.succ_le_iff, List.length_pos] using hne
  · intro chunk h
    simp [parseChunk, h]
  · intro hall
    rcases splitGo_single_or_headed s.data [] with h1 | ⟨chunk, hm, hs⟩
    · have hsplit : splitSections s = [s.data] := by
        simpa [splitSections] using h1
      have hone : parseSections s = [parseChunk s.data] := by
        simp [parseSections, hsplit]
      have htitle : (parseChunk s.data).title = none := by
        apply hall
        rw [hone]
        exact List.mem_singleton.mpr rfl
      cases hmh : matchHeader s.data with
      | some nt => simp [parseChunk, hmh] at htitle
      | none =>
        rw [hone]
        simp [parseChunk, hmh]
    · exfalso
      have hmem : parseChunk chunk ∈ parseSections s := List.mem_map_of_mem _ hm
      have htitle := hall _ hmem
      cases hmh : matchHeader chunk with
      | none => rw [hmh] at hs; simp at hs
      | some nt => simp [parseChunk, hmh] at htitle

/-- Witness for C2: a headerless response parses to the single untitled
pseudo-section holding the whole text. -/
theorem C2_witness :
    parseSections "hello world" =
      [{ number := none, title := none, rawBody := "hello world" }] :=
  (C2_sectionParsing_total_and_lossless "hello world").2.2.2.2 (by decide)

/-- C3 counterexample: the line `1. Foo Bar` IS treated as a section header
by the code — the title regex `[A-Z\s]+` is not anchored to the end of the
line, so the uppercase `F` satisfies it; the chunk becomes a ParsedSection
of its own (number 1, title `F`) instead of falling into the enclosing
body. -/
theorem C3_counterexample :
    parseSections "Intro prose\n1. Foo Bar\nmore text" =
      [{ number := none, title := none, rawBody := "Intro prose" },
       { number := some "1", title := some "F", rawBody := "1. Foo Bar\nmore text" }]
    ∧ ∃ sec ∈ parseSections "Intro prose\n1. Foo Bar\nmore text",
        sec.number = some "1" ∧ sec.title = some "F" := by
  constructor
  · decide
  · decide

/-- C3 amended: lowercase letters disqualify a candidate header line only
when the first character after the numeric prefix's whitespace is not
uppercase (e.g. `1. foo bar` falls through into the body); a line such as
`1. Foo Bar` IS treated as a header whose captured title is the maximal
run of uppercase letters and whitespace (`F`), and the unstripped header
line stays in the section body. -/
theorem C3_amended_lowercase_after_upper_headers :
    parseSections "Intro prose\n1. foo bar\nmore text" =
      [{ number := none, title := none, rawBody := "Intro prose\n1. foo bar\nmore text" }]
    ∧ parseSections "Intro prose\n1. Foo Bar\nmore text" =
      [{ number := none, title := none, rawBody := "Intro prose" },
       { number := some "1", title := some "F", rawBody := "1. Foo Bar\nmore text" }] := by
  constructor
  · decide
  · decide

/-- C4 counterexample: on `"1. FOO\nbody1\n2. BAR\nbody2"` the parser does
not return `{1, "FOO", "body1\n"}` and `{2, "BAR", "body2"}`. -/
theorem C4_counterexample :
    parseSections "1. FOO\nbody1\n2. BAR\nbody2" ≠
      [{ number := some "1", title := some "FOO", rawBody := "body1\n" },
       { number := some "2", title := some "BAR", rawBody := "body2" }] := by
  decide

/-- C4 amended: the parser returns exactly two sections with ordinals 1
and 2, but the captured titles are `"FOO\n"` and `"BAR\n"` (the `[A-Z\s]`
title class also matches the newline that ends the header line), and the
first rawBody is `"body1"` without a trailing newline (the newline before
`2. BAR` is the split separator and is consumed). -/
theorem C4_amended_exact_parse :
    parseSections "1. FOO\nbody1\n2. BAR\nbody2" =
      [{ number := some "1", title := some "FOO\n", rawBody := "body1" },
       { number := some "2", title := some "BAR\n", rawBody := "body2" }] := by
  decide

/-- C1: round-trip failure of the builder/parser contract.  The prompt
embeds the ten taxonomy lines `1. EXECUTIVE SUMMARY` … `10. BOTTOM LINE`
(see `promptSectionsBlock_text`), and on the stub response written in the
agreed grammar the parser recovers all ten ordinals in order — but NOT the
exact titles: every recovered title carries the trailing newline captured
by `[A-Z\s]+`, and `PRE-MARKET MOVERS` is cut at its hyphen to `PRE`, with
the unstripped header line left inside that section's body. -/
theorem C1_roundtrip_title_divergence :
    (parseSections agreedStubResponse).map ParsedSection.number =
      sectionSpec.map (fun p => some (toString p.1))
    ∧ (parseSections agreedStubResponse).map ParsedSection.title ≠
      sectionSpec.map (fun p => some p.2)
    ∧ (parseSections agreedStubResponse).map ParsedSection.title =
      [some "EXECUTIVE SUMMARY\n", some "MARKET OVERVIEW\n",
       some "OVERNIGHT NEWS ANALYSIS\n", some "SECTOR ANALYSIS\n", some "PRE",
       some "EARNINGS HIGHLIGHTS\n", some "KEY ECONOMIC EVENTS\n",
       some "RISK FACTORS\n", some "TRADING OPPORTUNITIES\n", some "BOTTOM LINE\n"]
    ∧ (parseSections agreedStubResponse).map ParsedSection.rawBody =
      ["body1", "body2", "body3", "body4", "5. PRE-MARKET MOVERS\nbody5",
       "body6", "body7", "body8", "body9", "body10"] := by
  refine ⟨by decide, by decide, by decide, by decide⟩

/-- The taxonomy block assembled from `sectionInstructions` is
character-for-character the static block of the source prompt template
(the ten paragraphs below, joined by blank lines). -/
theorem promptSectionsBlock_text :
    promptSectionsBlock = String.intercalate "\n\n"
      ["1. EXECUTIVE SUMMARY\n   - Brief 2-3 sentence overview of market sentiment and key overnight developments",
       "2. MARKET OVERVIEW\n   - Analysis of major indices (SPY, QQQ, DIA, IWM) performance\n   - Overall market direction and momentum\n   - Key technical levels",
       "3. OVERNIGHT NEWS ANALYSIS\n   - Summarize the most important news stories\n   - Explain market impact of each major story\n   - Identify themes and trends",
       "4. SECTOR ANALYSIS\n   - Performance breakdown by sector\n   - Leading and lagging sectors\n   - Sector rotation signals",
       "5. PRE-MARKET MOVERS\n   - Biggest gainers and losers\n   - Volume and volatility analysis\n   - Catalysts for significant moves",
       "6. EARNINGS HIGHLIGHTS\n   - Companies reporting today\n   - Expected market impact\n   - Sectors to watch",
       "7. KEY ECONOMIC EVENTS\n   - Important data releases or events today\n   - Expected market impact",
       "8. RISK FACTORS\n   - Potential headwinds or concerns\n   - Volatility indicators\n   - Key levels to watch",
       "9. TRADING OPPORTUNITIES\n   - Potential setups based on overnight action\n   - Risk/reward considerations\n   - Recommended watchlist",
       "10. BOTTOM LINE\n    - Clear, actionable summary\n    - Market bias (bullish/bearish/neutral)\n    - Key levels and catalysts for the day"] := by
  unfold promptSectionsBlock sectionInstructions
  simp only [List.map]
  congr 1

/-- C5: the quote-collection loop issues exactly one fetch per symbol — so
at most N fetches for a list of length N — strictly sequentially in list
order, with the inter-call delay inserted between consecutive fetches and
not after the last, hence exactly N−1 delay waits. -/
theorem C5_aggregator_sequential_pacing (syms : List String) :
    collectCallTrace syms = List.intersperse Ev.delay (syms.map Ev.fetch)
    ∧ (collectCallTrace syms).countP isFetchEv ≤ syms.length
    ∧ (collectCallTrace syms).countP isFetchEv = syms.length
    ∧ (collectCallTrace syms).countP isDelayEv = syms.length - 1 := by
  have key : ∀ l : List String,
      collectCallTrace l = List.intersperse Ev.delay (l.map Ev.fetch)
      ∧ (collectCallTrace l).countP isFetchEv = l.length
      ∧ (collectCallTrace l).countP isDelayEv = l.length - 1 := by
    intro l
    induction l with
    | nil => exact ⟨rfl, rfl, rfl⟩
    | cons s rest ih =>
      cases rest with
      | nil => exact ⟨rfl, rfl, rfl⟩
      | cons b t =>
        obtain ⟨ih1, ih2, ih3⟩ := ih
        have e1 : collectCallTrace (s :: b :: t)
            = Ev.fetch s :: Ev.delay :: collectCallTrace (b :: t) := rfl
        have e2 : List.intersperse Ev.delay ((s :: b :: t).map Ev.fetch)
            = Ev.fetch s :: Ev.delay :: List.intersperse Ev.delay ((b :: t).map Ev.fetch) := rfl
        refine ⟨?_, ?_, ?_⟩
        · rw [e1, e2, ih1]
        · have hstep : (Ev.fetch s :: Ev.delay :: collectCallTrace (b :: t)).countP isFetchEv
              = (collectCallTrace (b :: t)).countP isFetchEv + 1 := by
            simp [List.countP_cons, isFetchEv]
          rw [e1, hstep, ih2]
          simp
        · have hstep : (Ev.fetch s :: Ev.delay :: collectCallTrace (b :: t)).countP isDelayEv
              = (collectCallTrace (b :: t)).countP isDelayEv + 1 := by
            simp [List.countP_cons, isDelayEv]
          rw [e1, hstep, ih3]
          simp only [List.length_cons]
          omega
  exact ⟨(key syms).1, le_of_eq (key syms).2.1, (key syms).2.1, (key syms).2.2⟩

/-- The symbols of the collected quotes are exactly the symbols whose fetch
succeeded, in configured order. -/
theorem collectQuotesList_symbols (net : String → Option RawQuote) (syms : List String) :
    (collectQuotesList (fetchMarketData net) syms).map Quote.symbol
      = syms.filter (fun s => (net s).isSome) := by
  induction syms with
  | nil => rfl
  | cons s rest ih =>
    cases hn : net s with
    | none => simp [collectQuotesList, fetchMarketData, hn, ih, List.filter_cons]
    | some r => simp [collectQuotesList, fetchMarketData, hn, ih, List.filter_cons]

/-- C6: a failed fetch is dropped — the collected quote symbols are exactly
the successfully fetched symbols in configured order, the result length is
the number of successes, and a symbol whose fetch failed never appears in
the snapshot's quote list (the loop itself is a total function: no failure
escapes it). -/
theorem C6_failed_fetch_dropped (net : String → Option RawQuote) (syms : List String) :
    (collectQuotesList (fetchMarketData net) syms).map Quote.symbol
      = syms.filter (fun s => (net s).isSome)
    ∧ (collectQuotesList (fetchMarketData net) syms).length
      = (syms.filter (fun s => (net s).isSome)).length
    ∧ ∀ S, net S = none →
        ∀ q ∈ collectQuotesList (fetchMarketData net) syms, q.symbol ≠ S := by
  refine ⟨collectQuotesList_symbols net syms, ?_, ?_⟩
  · rw [← collectQuotesList_symbols net syms, List.length_map]
  · intro S hS q hq heq
    have hmem : q.symbol ∈ (collectQuotesList (fetchMarketData net) syms).map Quote.symbol :=
      List.mem_map_of_mem _ hq
    rw [collectQuotesList_symbols net syms] at hmem
    have hsome := (List.mem_filter.mp hmem).2
    rw [heq, hS] at hsome
    simp at hsome

/-- Witness for C6: with a provider that fails exactly on `AAPL`, the quote
collected for the symbol list `["SPY", "AAPL"]` is the `SPY` quote, whose
symbol is not `AAPL`. -/
theorem C6_witness :
    ({ symbol := "SPY", current := JsNum.null, change := JsNum.null,
       changePercent := JsNum.null, high := JsNum.null, low := JsNum.null,
       openPrice := JsNum.null, previousClose := JsNum.null } : Quote).symbol ≠ "AAPL" :=
  (C6_failed_fetch_dropped
      (fun s => if s = "AAPL" then none
        else some ⟨JsNum.null, JsNum.null, JsNum.null, JsNum.null, JsNum.null, JsNum.null, JsNum.null⟩)
      ["SPY", "AAPL"]).2.2 "AAPL" (by decide) _ (by decide)

/-- C7: the retained news list is capped with `slice(0, 20)` and the
retained earnings list with `slice(0, 10)` whatever the provider returns,
and a news or earnings fetch failure yields the empty list instead of a
propagated error. -/
theorem C7_news_earnings_caps (epochToIso : Int → String)
    (newsResp : Except Unit (List NewsRaw))
    (earnResp : Except Unit (Option (List EarningsEntry))) :
    (fetchMarketNews epochToIso newsResp).length ≤ 20
    ∧ (fetchEarningsCalendar earnResp).length ≤ 10
    ∧ fetchMarketNews epochToIso (Except.error ()) = []
    ∧ fetchEarningsCalendar (Except.error ()) = [] := by
  refine ⟨?_, ?_, rfl, rfl⟩
  · cases newsResp with
    | error e => simp [fetchMarketNews]
    | ok r =>
      simp only [fetchMarketNews, List.length_map, List.length_take]
      omega
  · cases earnResp with
    | error e => simp [fetchEarningsCalendar]
    | ok r =>
      cases r with
      | none => simp [fetchEarningsCalendar]
      | some cal =>
        simp only [fetchEarningsCalendar, List.length_take]
        omega

/-- C8 counterexample: a quote whose `changePercent` is `null` IS rendered
as the number zero — the `|| '0.00'` fallback displays `0.00%`, and the
JavaScript comparison `null >= 0` styles it as a gain (`▲`). -/
theorem C8_counterexample :
    changeLine (fun _ => "1.23")
      { symbol := "SPY", current := JsNum.num 450, change := JsNum.undef,
        changePercent := JsNum.null, high := JsNum.undef, low := JsNum.undef,
        openPrice := JsNum.undef, previousClose := JsNum.undef } = "▲ 0.00%"
    ∧ summaryCard (fun _ => "1.23")
      { symbol := "SPY", current := JsNum.num 450, change := JsNum.undef,
        changePercent := JsNum.null, high := JsNum.undef, low := JsNum.undef,
        openPrice := JsNum.undef, previousClose := JsNum.undef } = "SPY $1.23 ▲ 0.00%" :=
  ⟨rfl, rfl⟩

/-- C8 amended: a `null` (or absent) `current` is rendered as `N/A`, never
as zero; but a `null` `changePercent` is NOT treated as unknown — the card
renders it as `0.00` and the change line reads `▲ 0.00%`. -/
theorem C8_amended_null_display (fmt : Int → String) (q : Quote) :
    (q.current = JsNum.null ∨ q.current = JsNum.undef → currentDisplay fmt q = "N/A")
    ∧ (q.changePercent = JsNum.null →
        changePercentDisplay fmt q = "0.00" ∧ changeLine fmt q = "▲ 0.00%") := by
  constructor
  · rintro (h | h) <;> simp [currentDisplay, h]
  · intro h
    refine ⟨?_, ?_⟩
    · simp [changePercentDisplay, h]
    · simp [changeLine, changeSymbolOf, jsGE0, changePercentDisplay, h]

/-- Witness for C8 amended at a concrete quote with `null` fields. -/
theorem C8_witness :
    changePercentDisplay (fun _ => "9.99")
      { symbol := "QQQ", current := JsNum.null, change := JsNum.undef,
        changePercent := JsNum.null, high := JsNum.undef, low := JsNum.undef,
        openPrice := JsNum.undef, previousClose := JsNum.undef } = "0.00"
    ∧ changeLine (fun _ => "9.99")
      { symbol := "QQQ", current := JsNum.null, change := JsNum.undef,
        changePercent := JsNum.null, high := JsNum.undef, low := JsNum.undef,
        openPrice := JsNum.undef, previousClose := JsNum.undef } = "▲ 0.00%" :=
  (C8_amended_null_display (fun _ => "9.99") _).2 rfl

/-- C9: a synthesis failure is fatal — with the configuration present, if
the synthesis call returns an error then the run exits with code 1, the
error message is surfaced, no email is delivered, and the delivery call is
never even issued (so no partial report can be delivered). -/
theorem C9_synthesis_failure_is_fatal (cfg : Config) (ext : Externals) (e : String)
    (hcfg : configMissing cfg = false)
    (hsynth : ext.synthesize (mainPrompt ext) = Except.error e) :
    (runMain cfg ext).exitCode = 1
    ∧ (runMain cfg ext).sentEmails = []
    ∧ (runMain cfg ext).errorMessage = some e
    ∧ ApiCall.emailCall ∉ (runMain cfg ext).calls := by
  unfold runMain
  rw [hcfg]
  simp only [Bool.false_eq_true, if_false]
  rw [hsynth]
  refine ⟨rfl, rfl, rfl, ?_⟩
  show ApiCall.emailCall ∉
    List.map ApiCall.quoteCall allSymbols ++ [ApiCall.newsCall, ApiCall.earningsCall]
      ++ [ApiCall.synthCall]
  decide

/-- Witness for C9 at a concrete configuration and collaborators whose
synthesis call fails with message `boom`. -/
theorem C9_witness :
    (runMain ⟨some "k", some "f", some "u", some "p", some "r"⟩
        ⟨fun _ => none, Except.error (), Except.error (), fun _ => "",
         fun _ => "", fun _ => "", fun _ => "",
         fun _ => Except.error "boom", fun _ => Except.ok (), fun _ => "", "t"⟩).exitCode = 1
    ∧ (runMain ⟨some "k", some "f", some "u", some "p", some "r"⟩
        ⟨fun _ => none, Except.error (), Except.error (), fun _ => "",
         fun _ => "", fun _ => "", fun _ => "",
         fun _ => Except.error "boom", fun _ => Except.ok (), fun _ => "", "t"⟩).sentEmails = []
    ∧ (runMain ⟨some "k", some "f", some "u", some "p", some "r"⟩
        ⟨fun _ => none, Except.error (), Except.error (), fun _ => "",
         fun _ => "", fun _ => "", fun _ => "",
         fun _ => Except.error "boom", fun _ => Except.ok (), fun _ => "", "t"⟩).errorMessage = some "boom"
    ∧ ApiCall.emailCall ∉ (runMain ⟨some "k", some "f", some "u", some "p", some "r"⟩
        ⟨fun _ => none, Except.error (), Except.error (), fun _ => "",
         fun _ => "", fun _ => "", fun _ => "",
         fun _ => Except.error "boom", fun _ => Except.ok (), fun _ => "", "t"⟩).calls :=
  C9_synthesis_failure_is_fatal _ _ "boom" (by decide) rfl

/-- C10: if any of the five required configuration values is missing or
empty, the run terminates with exit code 1 and the human-readable missing
configuration message, sends no email, and issues no quote, news, earnings
or synthesis call at all. -/
theorem C10_missing_config_aborts_before_any_call (cfg : Config) (ext : Externals)
    (h : configMissing cfg = true) :
    runMain cfg ext =
      { exitCode := 1, sentEmails := [],
        errorMessage := some "Missing required environment variables. Please check your configuration.",
        calls := [] } := by
  unfold runMain
  rw [h]
  simp

/-- Witness for C10 with the Anthropic key unset. -/
theorem C10_witness :
    runMain ⟨none, some "f", some "u", some "p", some "r"⟩
        ⟨fun _ => none, Except.error (), Except.error (), fun _ => "",
         fun _ => "", fun _ => "", fun _ => "",
         fun _ => Except.error "x", fun _ => Except.ok (), fun _ => "", "t"⟩ =
      { exitCode := 1, sentEmails := [],
        errorMessage := some "Missing required environment variables. Please check your configuration.",
        calls := [] } :=
  C10_missing_config_aborts_before_any_call _ _ (by decide)

end DailyMarketReport
